import Mathlib

/-!
# Verification of `bot/exts/filtering/_filter_lists/filter_list.py`

A shallow embedding of the filter-list relevance and override-resolution
engine: the `ListType` enumeration and its alias converter, the
`FilterList` construction entry point `add_list`, and the pure resolver
`filter_list_result`.

Contexts are opaque (`Ctx` is a type parameter); validation rule sets are
lists of named boolean predicates whose `evaluate` returns the pair
(set of passed rule names, set of failed rule names); external
collaborators (`create_settings`, the filter constructor `filter_type`)
are function parameters returning `Except`.
-/

namespace BotFiltering

/-- An enumeration of list types, `ListType` (`DENY = 0`, `ALLOW = 1`). -/
inductive ListType
  | DENY
  | ALLOW
deriving DecidableEq, Repr

/-- Modelled from the spec: `past_tense` lives in
`bot/exts/filtering/_utils.py`, which is not part of the sources here; the
spec describes it as producing "a simple tense-adjusted (past-tense)
variant" of a token. We model the usual simple rule: a trailing "e" gets
"d", a trailing "y" becomes "ied", anything else gets "ed". -/
def past_tense (word : String) : String :=
  if word.endsWith "e" then word ++ "d"
  else if word.endsWith "y" then word.dropRight 1 ++ "ied"
  else word ++ "ed"

/-- The `BadArgument` raised by `ListTypeConverter.convert`, carrying the
offending token. -/
structure BadArgument where
  token : String
deriving DecidableEq, Repr

/-- The `DENY` alias set of `ListTypeConverter.aliases`. -/
def denyAliases : List String :=
  ["deny", "blocklist", "blacklist", "denylist", "bl", "dl"]

/-- The `ALLOW` alias set of `ListTypeConverter.aliases`. -/
def allowAliases : List String :=
  ["allow", "allowlist", "whitelist", "al", "wl"]

namespace ListTypeConverter

/-- The alias table `ListTypeConverter.aliases`, `DENY` entry first. -/
def aliases : List (ListType × List String) :=
  [(ListType.DENY, denyAliases), (ListType.ALLOW, allowAliases)]

/-- The loop body of `ListTypeConverter.convert`: walk the alias table,
return the first list type whose alias set (or its past-tense image)
contains the argument; raise `BadArgument` when none matches. -/
def convertLoop (argument : String) : List (ListType × List String) → Except BadArgument ListType
  | [] => .error ⟨argument⟩
  | (list_type, als) :: rest =>
      if argument ∈ als ∨ argument ∈ als.map past_tense then .ok list_type
      else convertLoop argument rest

/-- Get the appropriate list type (`ListTypeConverter.convert`). -/
def convert (argument : String) : Except BadArgument ListType :=
  convertLoop argument aliases

end ListTypeConverter

/-- A validation rule set: named boolean predicates over a context
(spec: "ValidationRule set (leaf): named boolean predicates over a
context, each independently evaluable"). -/
abbrev ValidationSettings (Ctx : Type) : Type :=
  List (String × (Ctx → Bool))

/-- Evaluate a validation rule set on a context, returning the pair
(set of passed rule names, set of failed rule names); a rule lands in
exactly one of the two sets. -/
def ValidationSettings.evaluate {Ctx : Type} (v : ValidationSettings Ctx) (ctx : Ctx) :
    Finset String × Finset String :=
  (((v.filter fun r => r.2 ctx).map Prod.fst).toFinset,
   ((v.filter fun r => !(r.2 ctx)).map Prod.fst).toFinset)

/-- A `Filter`: an opaque identity, a trigger predicate `triggered_on`,
and an optional validation-override rule set (`filter_.validations`). -/
structure Filter (Ctx : Type) where
  fid : Nat
  triggered_on : Ctx → Bool
  validations : Option (ValidationSettings Ctx)

/-- Python truthiness of `filter_.validations` as tested by
`if not filter_.validations:`. Modelled from the spec for the part not in
the sources (`ValidationSettings.__bool__` lives in
`bot/exts/filtering/_settings`): the spec states the override rule set
"may be empty, meaning no overrides", i.e. an empty rule set is falsy like
an empty Python dict, so both `None` and an empty set count as "no
overrides". -/
def Filter.hasOverrides {Ctx : Type} (f : Filter Ctx) : Bool :=
  match f.validations with
  | none => false
  | some v => !v.isEmpty

/-- The per-filter relevance-and-trigger test of the loop body of
`filter_list_result`: filters with no overrides need `default_answer` and
their trigger; filters with overrides need an empty failed set, a strict
Python-set inclusion `failed_by_default < passed`, and their trigger. -/
def filterKept {Ctx : Type} (ctx : Ctx) (failed_by_default : Finset String)
    (default_answer : Bool) (f : Filter Ctx) : Bool :=
  if !f.hasOverrides then
    default_answer && f.triggered_on ctx
  else
    let pf := ValidationSettings.evaluate (f.validations.getD []) ctx
    decide (pf.2 = ∅) && decide (failed_by_default ⊂ pf.1) && f.triggered_on ctx

/-- The resolver `FilterList.filter_list_result`: evaluate the defaults once, then keep
exactly the filters that are relevant in context and actually trigger
(the Python loop appends each kept filter in input order, i.e. filters the
list). -/
def filter_list_result {Ctx : Type} (ctx : Ctx) (filters : List (Filter Ctx))
    (defaults : ValidationSettings Ctx) : List (Filter Ctx) :=
  let failed_by_default := (ValidationSettings.evaluate defaults ctx).2
  let default_answer : Bool := decide (failed_by_default = ∅)
  filters.filter (filterKept ctx failed_by_default default_answer)

/-! ## Construction: `FilterList.__init__` and `FilterList.add_list` -/

/-- The Python exceptions relevant to `add_list`: `TypeError` (caught per
filter), `ValueError` (raised by the `ListType(...)` enum constructor),
and anything else. -/
inductive PyErr
  | typeError (msg : String)
  | valueError (msg : String)
  | other (msg : String)
deriving DecidableEq, Repr

/-- The raw `list_data["list_type"]` payload value: an integer or a
string token. -/
inductive LTValue
  | num (n : Nat)
  | str (s : String)
deriving DecidableEq, Repr

/-- The `ListType(...)` enum constructor used by `add_list`: value lookup
on the enumeration's raw values, `0 ↦ DENY`, `1 ↦ ALLOW`; any other value
raises `ValueError` (it does not consult the alias table). -/
def ListType.ofValue : LTValue → Except PyErr ListType
  | .num 0 => .ok ListType.DENY
  | .num 1 => .ok ListType.ALLOW
  | _ => .error (.valueError "is not a valid ListType")

/-- The inbound configuration payload of `add_list`:
`{ settings, list_type, filters }` with opaque settings payload type `SP`
and opaque filter payload type `FP`. -/
structure ListData (SP FP : Type) where
  settings : SP
  list_type : LTValue
  filters : List FP

/-- The mutable state of a `FilterList`: the two dicts set up by
`__init__` (`self.filter_lists = {}` and `self.defaults = {}`), as
insertion-ordered association lists with unique keys maintained by
`dictSet`. `self.filter_type` is threaded as the function parameter `ft`
of `add_list` instead of being stored. `A` is the opaque
`ActionSettings` type. -/
structure FilterListState (Ctx A : Type) where
  filter_lists : List (ListType × List (Filter Ctx))
  defaults : List (ListType × (A × ValidationSettings Ctx))

/-- The freshly constructed state of `FilterList.__init__`: both dicts
empty. -/
def FilterListState.init (Ctx A : Type) : FilterListState Ctx A := ⟨[], []⟩

/-- Python dict assignment `d[k] = v` on an association list: replace the
value at the first occurrence of `k`, else append a new entry. -/
def dictSet {β : Type} (k : ListType) (v : β) : List (ListType × β) → List (ListType × β)
  | [] => [(k, v)]
  | (k', v') :: rest => if k' = k then (k, v) :: rest else (k', v') :: dictSet k v rest

/-- Python dict lookup `d[k]` (as an option) on an association list. -/
def dictGet {β : Type} (k : ListType) : List (ListType × β) → Option β
  | [] => none
  | (k', v') :: rest => if k' = k then some v' else dictGet k rest

/-- The filter-construction loop of `add_list`: build each filter from
its payload and the shared actions; a `TypeError` is logged and the
filter skipped; any other exception propagates (aborting the loop before
`self.filter_lists` is assigned). -/
def buildFilters {A FP F : Type} (ft : FP → A → Except PyErr F) (actions : A) :
    List FP → Except PyErr (List F)
  | [] => .ok []
  | p :: ps =>
      match ft p actions with
      | .ok f =>
          match buildFilters ft actions ps with
          | .ok fs => .ok (f :: fs)
          | .error e => .error e
      | .error (.typeError _) => buildFilters ft actions ps
      | .error e => .error e

/-- The construction entry point `FilterList.add_list`, with the external collaborators as parameters:
`cs` is `create_settings` and `ft` is `self.filter_type`. Mirrors the
Python statement order — parse settings, resolve `ListType`, assign
`self.defaults[list_type]`, build the filters, assign
`self.filter_lists[list_type]`. The returned pair is (outcome, the state
after whatever mutations happened before any propagating exception),
reflecting Python's in-place mutation. -/
def add_list {Ctx A SP FP : Type}
    (cs : SP → Except PyErr (A × ValidationSettings Ctx))
    (ft : FP → A → Except PyErr (Filter Ctx))
    (s : FilterListState Ctx A) (list_data : ListData SP FP) :
    Except PyErr Unit × FilterListState Ctx A :=
  match cs list_data.settings with
  | .error e => (.error e, s)
  | .ok (actions, validations) =>
      match ListType.ofValue list_data.list_type with
      | .error e => (.error e, s)
      | .ok list_type =>
          let s1 : FilterListState Ctx A :=
            { s with defaults := dictSet list_type (actions, validations) s.defaults }
          match buildFilters ft actions list_data.filters with
          | .error e => (.error e, s1)
          | .ok filters =>
              (.ok (), { s1 with filter_lists := dictSet list_type filters s1.filter_lists })

/-- Run a finite sequence of `add_list` calls, keeping whatever state
each call leaves behind (exceptions propagate to the caller but the
object retains the mutations already performed). -/
def runAddLists {Ctx A SP FP : Type}
    (cs : SP → Except PyErr (A × ValidationSettings Ctx))
    (ft : FP → A → Except PyErr (Filter Ctx))
    (s : FilterListState Ctx A) (lds : List (ListData SP FP)) : FilterListState Ctx A :=
  lds.foldl (fun s ld => (add_list cs ft s ld).2) s

/-- Success test for `Except`. -/
def exceptOk {ε β : Type} : Except ε β → Bool
  | .ok _ => true
  | .error _ => false

/-- Did this result fail with a `TypeError`? -/
def isTypeError {β : Type} : Except PyErr β → Bool
  | .error (.typeError _) => true
  | _ => false

/-! ## Concrete instances used by witnesses and counterexamples -/

/-- A default rule set whose single rule `public_channel` fails on every
context. -/
def publicChannelFails : ValidationSettings Nat :=
  [("public_channel", fun _ => false)]

/-- A default rule set whose single rule `public_channel` passes on every
context. -/
def publicChannelPasses : ValidationSettings Nat :=
  [("public_channel", fun _ => true)]

/-- The spec scenario filter F2: overrides re-validate (and pass) exactly
the rule `public_channel`; its trigger predicate is constantly true. -/
def reclaimFilter : Filter Nat :=
  ⟨2, fun _ => true, some [("public_channel", fun _ => true)]⟩

/-- A filter with no validation overrides and a constantly-true trigger. -/
def noOverrideFilter : Filter Nat :=
  ⟨1, fun _ => true, none⟩

/-! ## Helper lemmas -/

theorem ValidationSettings.evaluate_congr {Ctx : Type} (v : ValidationSettings Ctx)
    (ctx ctx' : Ctx) (h : ∀ p ∈ v, p.2 ctx = p.2 ctx') :
    ValidationSettings.evaluate v ctx = ValidationSettings.evaluate v ctx' := by
  unfold ValidationSettings.evaluate
  have h1 : List.filter (fun r => r.2 ctx) v = List.filter (fun r => r.2 ctx') v :=
    List.filter_congr fun x hx => by rw [h x hx]
  have h2 : List.filter (fun r => !(r.2 ctx)) v = List.filter (fun r => !(r.2 ctx')) v :=
    List.filter_congr fun x hx => by rw [h x hx]
  rw [h1, h2]

theorem filterKept_empty_validations {Ctx : Type} (ctx : Ctx) (fbd : Finset String)
    (da : Bool) (n : Nat) (trig : Ctx → Bool) :
    filterKept ctx fbd da ⟨n, trig, some []⟩ = filterKept ctx fbd da ⟨n, trig, none⟩ := by
  simp [filterKept, Filter.hasOverrides]

/-! ## Claims about the resolver -/

/-- C1 (code_bug evaluation): at the spec scenario input — defaults fail
exactly `public_channel`, the filter overrides pass exactly
`public_channel` and fail nothing, and its trigger is true — all three
conditions of the claim hold (empty failed override set, every defaulted
failure contained in the passed set, trigger true), yet
`filter_list_result` returns the empty list: the code's strict Python set
comparison `failed_by_default < passed` rejects the equality case, so the
filter is excluded where the claim (and the function's own docstring)
includes it. -/
theorem filter_list_result_drops_exact_reclaim :
    (ValidationSettings.evaluate (reclaimFilter.validations.getD []) 0).2 = ∅ ∧
    (ValidationSettings.evaluate publicChannelFails 0).2 ⊆ (ValidationSettings.evaluate (reclaimFilter.validations.getD []) 0).1 ∧
    reclaimFilter.triggered_on 0 = true ∧
    filter_list_result 0 [reclaimFilter] publicChannelFails = [] :=
  ⟨by decide, by decide, rfl, rfl⟩

/-- C2: a filter carrying a present-but-empty override rule set is
resolved exactly like the same filter carrying no overrides at all — the
two outputs agree elementwise (projected to filter identities, since the
two variant filters are distinct values with the same identity). -/
theorem filter_list_result_empty_overrides_eq_none {Ctx : Type} (ctx : Ctx)
    (defaults : ValidationSettings Ctx) (pre post : List (Filter Ctx))
    (n : Nat) (trig : Ctx → Bool) :
    (filter_list_result ctx (pre ++ ⟨n, trig, some []⟩ :: post) defaults).map Filter.fid
      = (filter_list_result ctx (pre ++ ⟨n, trig, none⟩ :: post) defaults).map Filter.fid := by
  unfold filter_list_result
  rw [List.filter_append, List.filter_append, List.filter_cons, List.filter_cons,
      filterKept_empty_validations]
  cases filterKept ctx ((ValidationSettings.evaluate defaults ctx).2) (decide ((ValidationSettings.evaluate defaults ctx).2 = ∅))
      ⟨n, trig, none⟩ <;> simp

/-- C3: a filter with no validation overrides is in the resolver's output
iff it is in the input, the defaults' failed set is empty, and its
trigger predicate holds on the context; in particular when any default
validation fails, no such filter is ever included, whatever its trigger
says. -/
theorem filter_list_result_no_overrides_iff {Ctx : Type} (ctx : Ctx)
    (filters : List (Filter Ctx)) (defaults : ValidationSettings Ctx)
    (f : Filter Ctx) (hf : f.hasOverrides = false) :
    f ∈ filter_list_result ctx filters defaults ↔
      f ∈ filters ∧ (ValidationSettings.evaluate defaults ctx).2 = ∅ ∧ f.triggered_on ctx = true := by
  unfold filter_list_result
  rw [List.mem_filter]
  simp [filterKept, hf, and_assoc]

/-- C3 witness: the no-override filter with a true trigger, against
defaults that fail `public_channel`. -/
theorem filter_list_result_no_overrides_iff_witness :
    noOverrideFilter ∈ filter_list_result 0 [noOverrideFilter] publicChannelFails ↔
      noOverrideFilter ∈ [noOverrideFilter] ∧ (ValidationSettings.evaluate publicChannelFails 0).2 = ∅ ∧
      noOverrideFilter.triggered_on 0 = true :=
  filter_list_result_no_overrides_iff 0 [noOverrideFilter] publicChannelFails
    noOverrideFilter rfl

/-- C4: the resolver has set semantics on the input collection — every
output filter is an input filter, a duplicate-free input yields a
duplicate-free output, and permuting the input permutes the output (the
result is the same set of filters). -/
theorem filter_list_result_set_semantics {Ctx : Type} (ctx : Ctx)
    (defaults : ValidationSettings Ctx) (filters filters' : List (Filter Ctx))
    (hnd : filters.Nodup) (hperm : filters.Perm filters') :
    (∀ f ∈ filter_list_result ctx filters defaults, f ∈ filters) ∧
    (filter_list_result ctx filters defaults).Nodup ∧
    (filter_list_result ctx filters defaults).Perm
      (filter_list_result ctx filters' defaults) :=
  ⟨fun _ hf => List.mem_of_mem_filter hf, hnd.filter _, hperm.filter _⟩

/-- C4 witness: a concrete duplicate-free one-filter input. -/
theorem filter_list_result_set_semantics_witness :
    (filter_list_result 0 [noOverrideFilter] publicChannelFails).Nodup ∧
    (filter_list_result 0 [noOverrideFilter] publicChannelFails).Perm
      (filter_list_result 0 [noOverrideFilter] publicChannelFails) :=
  ⟨(filter_list_result_set_semantics 0 publicChannelFails [noOverrideFilter]
      [noOverrideFilter] (List.nodup_singleton _) (List.Perm.refl _)).2.1,
   (filter_list_result_set_semantics 0 publicChannelFails [noOverrideFilter]
      [noOverrideFilter] (List.nodup_singleton _) (List.Perm.refl _)).2.2⟩

/-- C9: the resolver is a deterministic function of the predicate values
on the context — two evaluations on contexts on which every default rule,
every override rule, and every trigger predicate evaluate identically
return identical results — and it returns the input filters themselves,
unmodified. -/
theorem filter_list_result_deterministic {Ctx : Type} (ctx ctx' : Ctx)
    (filters : List (Filter Ctx)) (defaults : ValidationSettings Ctx)
    (hd : ∀ p ∈ defaults, p.2 ctx = p.2 ctx')
    (hf : ∀ f ∈ filters, f.triggered_on ctx = f.triggered_on ctx' ∧
          ∀ v, f.validations = some v → ∀ p ∈ v, p.2 ctx = p.2 ctx') :
    filter_list_result ctx filters defaults = filter_list_result ctx' filters defaults ∧
    ∀ f ∈ filter_list_result ctx filters defaults, f ∈ filters := by
  constructor
  · unfold filter_list_result
    rw [ValidationSettings.evaluate_congr defaults ctx ctx' hd]
    refine List.filter_congr fun f hmem => ?_
    rcases hvf : f.validations with _ | v
    · simp [filterKept, Filter.hasOverrides, hvf, (hf f hmem).1]
    · have hev : ValidationSettings.evaluate v ctx = ValidationSettings.evaluate v ctx' :=
        ValidationSettings.evaluate_congr v ctx ctx' ((hf f hmem).2 v hvf)
      simp [filterKept, Filter.hasOverrides, hvf, (hf f hmem).1, hev]
  · exact fun _ hmemr => List.mem_of_mem_filter hmemr

/-- C9 witness: identical contexts trivially satisfy the agreement
hypotheses; the two evaluations coincide. -/
theorem filter_list_result_deterministic_witness :
    filter_list_result 0 [reclaimFilter] publicChannelFails
      = filter_list_result 0 [reclaimFilter] publicChannelFails :=
  (filter_list_result_deterministic 0 0 [reclaimFilter] publicChannelFails
    (fun _ _ => rfl) (fun _ _ => ⟨rfl, fun _ _ _ _ => rfl⟩)).1

/-! ## Claims about list-type resolution -/

/-- C6: `ListTypeConverter.convert` is totally characterized — a token
that is a `DENY` alias or a past-tense variant of one resolves to `DENY`;
otherwise a token that is an `ALLOW` alias or a past-tense variant of one
resolves to `ALLOW`; every other token yields the `BadArgument` error
carrying the offending token, never a default member. -/
theorem convert_characterization (argument : String) :
    ListTypeConverter.convert argument =
      (if argument ∈ denyAliases ++ denyAliases.map past_tense then .ok ListType.DENY
       else if argument ∈ allowAliases ++ allowAliases.map past_tense then .ok ListType.ALLOW
       else .error ⟨argument⟩) := by
  simp only [ListTypeConverter.convert, ListTypeConverter.aliases,
    ListTypeConverter.convertLoop, List.mem_append]

/-! ## Claims about construction -/

theorem buildFilters_all_tolerated {A FP F : Type} (ft : FP → A → Except PyErr F) (a : A)
    (ps : List FP) (h : ∀ p ∈ ps, (exceptOk (ft p a) || isTypeError (ft p a)) = true) :
    buildFilters ft a ps = .ok (ps.filterMap fun p => (ft p a).toOption) := by
  induction ps with
  | nil => rfl
  | cons p ps ih =>
      have hp := h p (List.mem_cons_self p ps)
      have hrest := ih fun q hq => h q (List.mem_cons_of_mem p hq)
      unfold buildFilters
      rcases hft : ft p a with e | f
      · rcases e with m | m | m
        · simp only [hft, hrest]
          have h1 : (ft p a).toOption = none := by rw [hft]; rfl
          simp [List.filterMap_cons, h1]
        · simp [hft, exceptOk, isTypeError] at hp
        · simp [hft, exceptOk, isTypeError] at hp
      · simp only [hft, hrest]
        have h1 : (ft p a).toOption = some f := by rw [hft]; rfl
        simp [List.filterMap_cons, h1]

theorem filterMap_toOption_length {A FP F : Type} (ft : FP → A → Except PyErr F) (a : A)
    (ps : List FP) :
    (ps.filterMap fun p => (ft p a).toOption).length
      = ps.length - ps.countP fun p => !exceptOk (ft p a) := by
  induction ps with
  | nil => rfl
  | cons p ps ih =>
      have hle := List.countP_le_length (p := fun p => !exceptOk (ft p a)) (l := ps)
      rcases hft : ft p a with e | f
      · have h1 : (ft p a).toOption = none := by rw [hft]; rfl
        have h2 : (!exceptOk (ft p a)) = true := by rw [hft]; rfl
        simp only [List.filterMap_cons, h1, List.countP_cons, h2, if_pos, List.length_cons, ih]
        omega
      · have h1 : (ft p a).toOption = some f := by rw [hft]; rfl
        have h2 : (!exceptOk (ft p a)) = false := by rw [hft]; rfl
        simp only [List.filterMap_cons, h1, List.countP_cons, h2, List.length_cons, ih,
          Bool.false_eq_true, if_false]
        omega

/-- C5: `add_list` with a malformed settings payload propagates the
settings error and leaves the `FilterList` untouched (no partition is
constructed); with well-formed settings and a valid list type, when every
filter payload either constructs or fails with the tolerated `TypeError`,
the call succeeds and stores as the partition exactly the filters built
from the well-formed payloads — `N − M` of them, where `M` counts the
malformed payloads. -/
theorem add_list_construction_tolerance {Ctx A SP FP : Type}
    (cs : SP → Except PyErr (A × ValidationSettings Ctx))
    (ft : FP → A → Except PyErr (Filter Ctx))
    (s : FilterListState Ctx A) (ld : ListData SP FP)
    (a : A) (v : ValidationSettings Ctx) (lt : ListType) :
    (∀ e, cs ld.settings = .error e → add_list cs ft s ld = (.error e, s)) ∧
    (cs ld.settings = .ok (a, v) → ListType.ofValue ld.list_type = .ok lt →
      (∀ p ∈ ld.filters, (exceptOk (ft p a) || isTypeError (ft p a)) = true) →
      add_list cs ft s ld =
        (.ok (), ⟨dictSet lt (ld.filters.filterMap fun p => (ft p a).toOption) s.filter_lists,
                  dictSet lt (a, v) s.defaults⟩) ∧
      (ld.filters.filterMap fun p => (ft p a).toOption).length
        = ld.filters.length - ld.filters.countP fun p => !exceptOk (ft p a)) := by
  constructor
  · intro e he
    unfold add_list
    rw [he]
  · intro hcs hlt hp
    refine ⟨?_, filterMap_toOption_length ft a ld.filters⟩
    unfold add_list
    simp only [hcs, hlt, buildFilters_all_tolerated ft a ld.filters hp]

/-! ## Concrete construction instances for witnesses -/

/-- A `create_settings` collaborator that always parses. -/
def csGood : Nat → Except PyErr (Unit × ValidationSettings Nat) :=
  fun _ => .ok ((), [])

/-- A `create_settings` collaborator that always fails. -/
def csBad : Nat → Except PyErr (Unit × ValidationSettings Nat) :=
  fun _ => .error (.other "malformed settings")

/-- A filter constructor for which payload `0` is malformed (raises
`TypeError`) and every other payload builds. -/
def ftSample : Nat → Unit → Except PyErr (Filter Nat) :=
  fun p _ => if p = 0 then .error (.typeError "malformed filter")
             else .ok ⟨p, fun _ => true, none⟩

/-- A filter constructor that raises a non-`TypeError` exception on every
payload. -/
def ftOther : Nat → Unit → Except PyErr (Filter Nat) :=
  fun _ _ => .error (.other "boom")

/-- A freshly constructed `FilterList` state. -/
def s0 : FilterListState Nat Unit := FilterListState.init Nat Unit

/-- A payload with three filter definitions, the first malformed. -/
def ld0 : ListData Nat Nat := ⟨0, .num 0, [0, 1, 2]⟩

/-- A payload targeting the `ALLOW` partition with one filter payload. -/
def ld1 : ListData Nat Nat := ⟨0, .num 1, [5]⟩

/-- The filters `ftSample` builds from the well-formed payloads of
`ld0`. -/
def builtSample : List (Filter Nat) :=
  ld0.filters.filterMap fun p => (ftSample p ()).toOption

/-- How many of `ld0`'s payloads are malformed for `ftSample`. -/
def malformedCount : Nat :=
  ld0.filters.countP fun p => !exceptOk (ftSample p ())

/-- C5 witness: malformed settings abort `add_list` with the state
untouched; with good settings, of the three payloads of `ld0` exactly the
first is malformed and the stored `DENY` partition holds exactly the two
built filters (`3 − 1` of them). -/
theorem add_list_construction_tolerance_witness :
    add_list csBad ftSample s0 ld0 = (.error (.other "malformed settings"), s0) ∧
    add_list csGood ftSample s0 ld0 =
      (.ok (), ⟨dictSet ListType.DENY builtSample s0.filter_lists,
                dictSet ListType.DENY ((), []) s0.defaults⟩) ∧
    builtSample.length = ld0.filters.length - malformedCount :=
  ⟨(add_list_construction_tolerance csBad ftSample s0 ld0 () [] ListType.DENY).1
      (.other "malformed settings") rfl,
   (add_list_construction_tolerance csGood ftSample s0 ld0 () [] ListType.DENY).2
      rfl rfl (by decide)⟩

/-- C7 counterexample: the token `"blacklist"` is accepted by the §4.1
alias resolution (`ListTypeConverter.convert` maps it to `DENY`), yet
`add_list` — which resolves `list_type` with the `ListType(...)` enum
value constructor, not the converter — raises `ValueError` on it and
stores nothing. -/
theorem add_list_rejects_alias_token :
    ListTypeConverter.convert "blacklist" = .ok ListType.DENY ∧
    add_list csGood ftSample s0 ⟨0, .str "blacklist", []⟩
      = (.error (.valueError "is not a valid ListType"), s0) :=
  ⟨rfl, rfl⟩

/-- C7 (amended): `add_list` resolves the payload's `list_type` through
the `ListType` enumeration's raw values — `0` designates `DENY` and `1`
designates `ALLOW` — and every string token (alias or not) raises
`ValueError` with the state unchanged; alias resolution belongs to the
command-layer converter only. -/
theorem add_list_list_type_resolution {Ctx A SP FP : Type}
    (cs : SP → Except PyErr (A × ValidationSettings Ctx))
    (ft : FP → A → Except PyErr (Filter Ctx))
    (s : FilterListState Ctx A) (sp : SP) (fps : List FP)
    (a : A) (v : ValidationSettings Ctx) (tok : String)
    (hok : cs sp = .ok (a, v)) :
    add_list cs ft s ⟨sp, .str tok, fps⟩
      = (.error (.valueError "is not a valid ListType"), s) ∧
    ListType.ofValue (.num 0) = .ok ListType.DENY ∧
    ListType.ofValue (.num 1) = .ok ListType.ALLOW := by
  refine ⟨?_, rfl, rfl⟩
  unfold add_list
  simp only [hok, ListType.ofValue]

/-- C7 witness: the amended resolution at the token `"allowlist"`. -/
theorem add_list_list_type_resolution_witness :
    add_list csGood ftSample s0 ⟨0, .str "allowlist", []⟩
      = (.error (.valueError "is not a valid ListType"), s0) ∧
    ListType.ofValue (.num 0) = .ok ListType.DENY ∧
    ListType.ofValue (.num 1) = .ok ListType.ALLOW :=
  add_list_list_type_resolution csGood ftSample s0 0 [] () [] "allowlist" rfl

/-! ## Dict lemmas and the uniqueness invariant -/

theorem dictSet_mem_keys {β : Type} (k : ListType) (v : β) (l : List (ListType × β))
    (x : ListType) :
    x ∈ (dictSet k v l).map Prod.fst ↔ x = k ∨ x ∈ l.map Prod.fst := by
  induction l with
  | nil => simp [dictSet]
  | cons p rest ih =>
      rcases p with ⟨k', v'⟩
      by_cases hk : k' = k
      · subst hk
        simp [dictSet]
      · simp [dictSet, hk, ih]
        tauto

theorem dictSet_keys_nodup {β : Type} (k : ListType) (v : β) (l : List (ListType × β))
    (h : (l.map Prod.fst).Nodup) : ((dictSet k v l).map Prod.fst).Nodup := by
  induction l with
  | nil => simp [dictSet]
  | cons p rest ih =>
      rcases p with ⟨k', v'⟩
      simp only [List.map_cons, List.nodup_cons] at h
      by_cases hk : k' = k
      · subst hk
        simpa [dictSet] using h
      · simp only [dictSet, if_neg hk, List.map_cons, List.nodup_cons]
        exact ⟨fun hmem => by
          rcases (dictSet_mem_keys k v rest k').1 hmem with h1 | h1
          · exact hk h1
          · exact h.1 h1,
          ih h.2⟩

theorem dictGet_dictSet {β : Type} (k : ListType) (v : β) (l : List (ListType × β)) :
    dictGet k (dictSet k v l) = some v := by
  induction l with
  | nil => simp [dictSet, dictGet]
  | cons p rest ih =>
      rcases p with ⟨k', v'⟩
      by_cases hk : k' = k <;> simp [dictSet, dictGet, hk, ih]

/-- Whatever `add_list` does, each of the two state dicts is either left
alone or written through `dictSet`, so unique keys are preserved. -/
theorem add_list_keys_nodup {Ctx A SP FP : Type}
    (cs : SP → Except PyErr (A × ValidationSettings Ctx))
    (ft : FP → A → Except PyErr (Filter Ctx))
    (s : FilterListState Ctx A) (ld : ListData SP FP)
    (h1 : (s.filter_lists.map Prod.fst).Nodup) (h2 : (s.defaults.map Prod.fst).Nodup) :
    (((add_list cs ft s ld).2.filter_lists.map Prod.fst).Nodup) ∧
    (((add_list cs ft s ld).2.defaults.map Prod.fst).Nodup) := by
  unfold add_list
  rcases hcs : cs ld.settings with e | ⟨a, v⟩
  · simp only [hcs]
    exact ⟨h1, h2⟩
  · simp only [hcs]
    rcases hlt : ListType.ofValue ld.list_type with e | lt
    · simp only [hlt]
      exact ⟨h1, h2⟩
    · simp only [hlt]
      rcases hbf : buildFilters ft a ld.filters with e | fs
      · simp only [hbf]
        exact ⟨h1, dictSet_keys_nodup lt (a, v) s.defaults h2⟩
      · simp only [hbf]
        exact ⟨dictSet_keys_nodup lt fs s.filter_lists h1,
               dictSet_keys_nodup lt (a, v) s.defaults h2⟩

theorem runAddLists_keys_nodup {Ctx A SP FP : Type}
    (cs : SP → Except PyErr (A × ValidationSettings Ctx))
    (ft : FP → A → Except PyErr (Filter Ctx))
    (lds : List (ListData SP FP)) (s : FilterListState Ctx A)
    (h1 : (s.filter_lists.map Prod.fst).Nodup) (h2 : (s.defaults.map Prod.fst).Nodup) :
    (((runAddLists cs ft s lds).filter_lists.map Prod.fst).Nodup) ∧
    (((runAddLists cs ft s lds).defaults.map Prod.fst).Nodup) := by
  induction lds generalizing s with
  | nil => exact ⟨h1, h2⟩
  | cons ld lds ih =>
      have hstep := add_list_keys_nodup cs ft s ld h1 h2
      exact ih ((add_list cs ft s ld).2) hstep.1 hstep.2

/-- C8: starting from the freshly constructed state, after any finite
sequence of `add_list` calls both dicts have at most one entry per
`ListType` tag; and a successful `add_list` for a tag stores the new
defaults and the new partition at that tag — replacing, not accumulating,
any previous binding. -/
theorem filterList_unique_partitions {Ctx A SP FP : Type}
    (cs : SP → Except PyErr (A × ValidationSettings Ctx))
    (ft : FP → A → Except PyErr (Filter Ctx))
    (lds : List (ListData SP FP)) (s : FilterListState Ctx A) (ld : ListData SP FP)
    (a : A) (v : ValidationSettings Ctx) (lt : ListType) (fs : List (Filter Ctx))
    (hcs : cs ld.settings = .ok (a, v))
    (hlt : ListType.ofValue ld.list_type = .ok lt)
    (hbf : buildFilters ft a ld.filters = .ok fs) :
    (((runAddLists cs ft (FilterListState.init Ctx A) lds).filter_lists.map Prod.fst).Nodup ∧
     ((runAddLists cs ft (FilterListState.init Ctx A) lds).defaults.map Prod.fst).Nodup) ∧
    dictGet lt (add_list cs ft s ld).2.defaults = some (a, v) ∧
    dictGet lt (add_list cs ft s ld).2.filter_lists = some fs := by
  refine ⟨runAddLists_keys_nodup cs ft lds _ (by simp [FilterListState.init])
    (by simp [FilterListState.init]), ?_, ?_⟩ <;>
  · unfold add_list
    simp only [hcs, hlt, hbf]
    exact dictGet_dictSet ..

/-- C8 witness: two `add_list` calls for the same `DENY` tag from a fresh
state; the keys stay duplicate-free and the second call's partition and
defaults are the ones stored. -/
theorem filterList_unique_partitions_witness :
    (((runAddLists csGood ftSample (FilterListState.init Nat Unit) [ld0, ld0]).filter_lists.map
        Prod.fst).Nodup ∧
     ((runAddLists csGood ftSample (FilterListState.init Nat Unit) [ld0, ld0]).defaults.map
        Prod.fst).Nodup) ∧
    dictGet ListType.DENY (add_list csGood ftSample s0 ld0).2.defaults = some ((), []) ∧
    dictGet ListType.DENY (add_list csGood ftSample s0 ld0).2.filter_lists = some builtSample :=
  filterList_unique_partitions csGood ftSample [ld0, ld0] s0 ld0 () [] ListType.DENY
    builtSample rfl rfl rfl

/-! ## C10: mutation order and the scope of the per-filter tolerance -/

theorem buildFilters_error_not_typeError {A FP F : Type} (ft : FP → A → Except PyErr F)
    (a : A) (ps : List FP) (eb : PyErr) (h : buildFilters ft a ps = .error eb) :
    ∀ m, eb ≠ PyErr.typeError m := by
  induction ps with
  | nil => simp [buildFilters] at h
  | cons p ps ih =>
      unfold buildFilters at h
      rcases hft : ft p a with e | f
      · rcases e with m | m | m
        · rw [hft] at h
          exact ih h
        · rw [hft] at h
          simp at h
          subst h
          simp
        · rw [hft] at h
          simp at h
          subst h
          simp
      · rw [hft] at h
        rcases hb : buildFilters ft a ps with e' | fs
        · rw [hb] at h
          simp at h
          subst h
          exact ih hb
        · rw [hb] at h
          simp at h

/-- C10: a settings failure happens before any mutation, so `add_list`
propagates it with the state untouched; a filter constructor raising a
non-`TypeError` propagates after `self.defaults` has been written, so
the failed call leaves the new tag's defaults stored while
`self.filter_lists` is unchanged (no partition entry for a fresh tag);
the tolerated per-filter failure is exactly `TypeError` — a propagated
build error is never a `TypeError`, and a `TypeError` payload is simply
skipped. -/
theorem add_list_not_atomic {Ctx A SP FP : Type}
    (cs : SP → Except PyErr (A × ValidationSettings Ctx))
    (ft : FP → A → Except PyErr (Filter Ctx))
    (s : FilterListState Ctx A) (ld : ListData SP FP)
    (e eb : PyErr) (a : A) (v : ValidationSettings Ctx) (lt : ListType)
    (p : FP) (ps : List FP) (m : String) :
    (cs ld.settings = .error e → add_list cs ft s ld = (.error e, s)) ∧
    (cs ld.settings = .ok (a, v) → ListType.ofValue ld.list_type = .ok lt →
      buildFilters ft a ld.filters = .error eb →
      add_list cs ft s ld = (.error eb, ⟨s.filter_lists, dictSet lt (a, v) s.defaults⟩) ∧
      dictGet lt (add_list cs ft s ld).2.defaults = some (a, v) ∧
      (add_list cs ft s ld).2.filter_lists = s.filter_lists) ∧
    (buildFilters ft a ps = .error eb → eb ≠ PyErr.typeError m) ∧
    (ft p a = .error (.typeError m) → buildFilters ft a (p :: ps) = buildFilters ft a ps) := by
  refine ⟨?_, ?_, ?_, ?_⟩
  · intro he
    unfold add_list
    rw [he]
  · intro hcs hlt hbf
    have hst : add_list cs ft s ld = (.error eb, ⟨s.filter_lists, dictSet lt (a, v) s.defaults⟩) := by
      unfold add_list
      simp only [hcs, hlt, hbf]
    refine ⟨hst, ?_, ?_⟩
    · rw [hst]
      exact dictGet_dictSet ..
    · rw [hst]
  · intro hbf
    exact buildFilters_error_not_typeError ft a ps eb hbf m
  · intro hft
    simp only [buildFilters, hft]

/-- C10 witness: malformed settings leave the fresh state untouched; a
non-`TypeError` filter failure on the `ALLOW` payload leaves its defaults
stored but no `ALLOW` partition; the propagated error is not a
`TypeError`; and the `TypeError` payload `0` is skipped. -/
theorem add_list_not_atomic_witness :
    add_list csBad ftSample s0 ld1 = (.error (.other "malformed settings"), s0) ∧
    (add_list csGood ftOther s0 ld1 =
        (.error (.other "boom"), ⟨s0.filter_lists, dictSet ListType.ALLOW ((), []) s0.defaults⟩) ∧
      dictGet ListType.ALLOW (add_list csGood ftOther s0 ld1).2.defaults = some ((), []) ∧
      (add_list csGood ftOther s0 ld1).2.filter_lists = s0.filter_lists) ∧
    PyErr.other "boom" ≠ PyErr.typeError "malformed filter" ∧
    buildFilters ftSample () (0 :: [1, 2]) = buildFilters ftSample () [1, 2] :=
  ⟨(add_list_not_atomic csBad ftSample s0 ld1 (.other "malformed settings")
      (.other "boom") () [] ListType.ALLOW 0 [1, 2] "malformed filter").1 rfl,
   (add_list_not_atomic csGood ftOther s0 ld1 (.other "malformed settings")
      (.other "boom") () [] ListType.ALLOW 0 [1, 2] "malformed filter").2.1 rfl rfl rfl,
   (add_list_not_atomic csGood ftOther s0 ld1 (.other "malformed settings")
      (.other "boom") () [] ListType.ALLOW 5 [5] "malformed filter").2.2.1 rfl,
   (add_list_not_atomic csGood ftSample s0 ld0 (.other "malformed settings")
      (.other "boom") () [] ListType.DENY 0 [1, 2] "malformed filter").2.2.2 rfl⟩

end BotFiltering
